import Mathlib

/-!
Verification development for the MXU orchestration layer.

The Rust sources are shallowly embedded: every engine (MaaFramework) call is
an opaque external collaborator, so its outcome is an input ("oracle") of the
embedded function; process ids and native handles are `Nat`; fallible Rust
code returns `Except String`.  Stateful commands are embedded as pure
functions from the pre-state (and the oracles) to the produced result, the
post-state, and a trace of externally visible actions.  Registry snapshots
taken while holding the registry lock are returned as an explicit list of
observable intermediate states.
-/

namespace MXU

/-- Infix byte-sequence test used to state facts about error strings. -/
def listIsPre : List Char → List Char → Bool
  | [], _ => true
  | _ :: _, [] => false
  | a :: as, b :: bs => a = b && listIsPre as bs

/-- Whether `needle` occurs contiguously inside `hay`. -/
def listInfixB (needle : List Char) : List Char → Bool
  | [] => listIsPre needle []
  | b :: bs => listIsPre needle (b :: bs) || listInfixB needle bs

/-- Whether `needle` is a substring of `hay`. -/
def strContainsSub (hay needle : String) : Bool :=
  listInfixB needle.toList hay.toList

/-- Modelled from the spec: the engine's sentinel identifier returned by a
failed post operation (`MAA_INVALID_ID`); its definition site is outside the
provided sources, only its uses appear in `maa_commands.rs`. -/
def MAA_INVALID_ID : Int := 0

namespace AgentCmd

/- ===== Embedding of src/src-tauri/src/commands/maa_agent.rs ===== -/

/-- Task entry handed to `maa_start_tasks` (`TaskConfig`). -/
structure TaskConfig where
  entry : String
  pipeline_override : String
deriving DecidableEq

/-- Per-instance runtime owned by the registry, as used by
`commands/maa_agent.rs` (`InstanceRuntime` of the new command module):
optional resource/controller/tasker handles, the paired agent collections
and the cached task ids. -/
structure AgentInstance where
  resource : Option Nat
  controller : Option Nat
  tasker : Option Nat
  agent_clients : List Nat
  agent_children : List Nat
  task_ids : List Int
deriving DecidableEq

/-- Externally visible actions performed by the agent commands. -/
inductive AAction where
  | spawned (pid : Nat)
  | killed (pid : Nat)
  | waited (pid : Nat)
  | disconnected (client : Nat)
  | posted (idx : Nat)
deriving DecidableEq

/-- Oracle for one `start_single_agent` run: the outcome of each fallible
engine/OS step (client creation over both transports, resource bind,
connection identifier, process spawn, connect handshake, sink registration)
plus the resolved executable path used in the spawn error message. -/
structure AgentEnv where
  createTcp : Except String Nat
  createDefault : Except String Nat
  bindResult : Except String Unit
  identifier : Option String
  execPath : String
  spawnResult : Except String Nat
  connectResult : Except String Unit
  sinksResult : Except String Unit

/-- Client creation: in TCP-compat mode try `AgentClient::create_tcp` and
fall back to the default transport on failure, otherwise use the default
transport directly. -/
def createClient (tcp_compat_mode : Bool) (env : AgentEnv) : Except String Nat :=
  if tcp_compat_mode then
    match env.createTcp with
    | .ok c => .ok c
    | .error _ => env.createDefault
  else
    env.createDefault

/-- `start_single_agent`: create a client, bind the resource, obtain the
connection identifier, spawn the child, connect, register the sinks.  The
result pairs the agent client with the child pid; the action list records
the spawn and any kill issued on a post-spawn failure. -/
def start_single_agent (agent_index : Nat) (tcp_compat_mode : Bool) (env : AgentEnv) :
    Except String (Nat × Nat) × List AAction :=
  match createClient tcp_compat_mode env with
  | .error e => (.error e, [])
  | .ok client =>
    match env.bindResult with
    | .error e => (.error e, [])
    | .ok _ =>
      match env.identifier with
      | none => (.error ("Failed to get identifier for agent #" ++ toString agent_index), [])
      | some _ =>
        match env.spawnResult with
        | .error e =>
          (.error ("Failed to spawn agent #" ++ toString agent_index ++ ": " ++ e
            ++ " (path: " ++ env.execPath ++ ")"), [])
        | .ok pid =>
          match env.connectResult with
          | .error e => (.error e, [.spawned pid, .killed pid])
          | .ok _ =>
            match env.sinksResult with
            | .error e => (.error e, [.spawned pid, .killed pid])
            | .ok _ => (.ok (client, pid), [.spawned pid])

/-- Whether a launch with this oracle succeeds (independent of the index,
which only enters error messages). -/
def launchOk (tcp_compat_mode : Bool) (env : AgentEnv) : Bool :=
  (match createClient tcp_compat_mode env with | .ok _ => true | .error _ => false) &&
  (match env.bindResult with | .ok _ => true | .error _ => false) &&
  env.identifier.isSome &&
  (match env.spawnResult with | .ok _ => true | .error _ => false) &&
  (match env.connectResult with | .ok _ => true | .error _ => false) &&
  (match env.sinksResult with | .ok _ => true | .error _ => false)

/-- The agent-batch loop of `maa_start_tasks`: launch each agent in order,
accumulating the succeeded clients and children; on the first failure
disconnect every accumulated client, kill and wait every accumulated child,
and return the aggregated error. -/
def startAgents (tcp_compat_mode : Bool) (idx : Nat) (accClients accChildren : List Nat) :
    List AgentEnv → Except String (List Nat × List Nat) × List AAction
  | [] => (.ok (accClients, accChildren), [])
  | env :: rest =>
    match start_single_agent idx tcp_compat_mode env with
    | (.ok (client, child), acts) =>
      let r := startAgents tcp_compat_mode (idx + 1)
        (accClients ++ [client]) (accChildren ++ [child]) rest
      (r.1, acts ++ r.2)
    | (.error e, acts) =>
      (.error ("Agent start failed: " ++ e),
        acts ++ accClients.map AAction.disconnected
          ++ accChildren.flatMap (fun p => [AAction.killed p, AAction.waited p]))

/-- Oracle for the non-agent steps of `maa_start_tasks`: tasker creation,
sink attachment, binding, the `inited` query and the per-index outcome of
`post_task` (`none` models a failed post). -/
structure StartTasksEnv where
  taskerNew : Except String Nat
  addSink : Except String Unit
  addContextSink : Except String Unit
  taskerBind : Except String Unit
  inited : Bool
  postTask : Nat → Option Int

/-- First lock section of `maa_start_tasks`: require the resource and the
controller, then reuse the stored tasker or create, sink, and bind a new one
and store it on the instance. -/
def ensureTasker (inst : AgentInstance) (env : StartTasksEnv) :
    Except String (AgentInstance × Nat) :=
  match inst.resource with
  | none => .error "Resource not loaded"
  | some _ =>
    match inst.controller with
    | none => .error "Controller not connected"
    | some _ =>
      match inst.tasker with
      | some t => .ok (inst, t)
      | none =>
        match env.taskerNew with
        | .error e => .error e
        | .ok t =>
          match env.addSink with
          | .error e => .error e
          | .ok _ =>
            match env.addContextSink with
            | .error e => .error e
            | .ok _ =>
              match env.taskerBind with
              | .error e => .error e
              | .ok _ => .ok ({ inst with tasker := some t }, t)

/-- The task-submission loop of `maa_start_tasks`: post each task in input
order; a failed post is logged and skipped, a successful post contributes
its id. Every attempt is recorded as a `posted` action. -/
def submitTasks (post : Nat → Option Int) : Nat → List TaskConfig → List Int × List AAction
  | _, [] => ([], [])
  | idx, _task :: rest =>
    let r := submitTasks post (idx + 1) rest
    match post idx with
    | some id => (id :: r.1, AAction.posted idx :: r.2)
    | none => (r.1, AAction.posted idx :: r.2)

/-- `maa_start_tasks`: resolve the instance, ensure a tasker, check the
`inited` flag, run the agent batch (if configured), submit the tasks, cache
the task ids.  The middle component lists the instance states that become
observable at each lock-held registry mutation. -/
def maa_start_tasks (instOpt : Option AgentInstance) (env : StartTasksEnv)
    (tasks : List TaskConfig) (agentEnvs : Option (List AgentEnv)) (tcp_compat_mode : Bool) :
    Except String (List Int) × List AgentInstance × List AAction :=
  match instOpt with
  | none => (.error "Instance not found", [], [])
  | some inst0 =>
    match ensureTasker inst0 env with
    | .error e => (.error e, [], [])
    | .ok (inst1, _t) =>
      if env.inited = false then
        (.error "Tasker not properly initialized", [inst1], [])
      else
        match agentEnvs with
        | none =>
          let r := submitTasks env.postTask 0 tasks
          (.ok r.1, [inst1, { inst1 with task_ids := r.1 }], r.2)
        | some envs =>
          if envs.isEmpty then
            let r := submitTasks env.postTask 0 tasks
            (.ok r.1, [inst1, { inst1 with task_ids := r.1 }], r.2)
          else
            match startAgents tcp_compat_mode 0 [] [] envs with
            | (.error e, acts) => (.error e, [inst1], acts)
            | (.ok (clients, children), acts) =>
              let inst2 := { inst1 with
                agent_clients := inst1.agent_clients ++ clients,
                agent_children := inst1.agent_children ++ children }
              let r := submitTasks env.postTask 0 tasks
              (.ok r.1, [inst1, inst2, { inst2 with task_ids := r.1 }], acts ++ r.2)

/-- Result of one non-blocking `try_wait` poll on a child process. -/
inductive PollRes where
  | running
  | exited
  | errored
deriving DecidableEq

/-- Externally visible actions of the shutdown coordinator
(`maa_stop_agent`'s background thread). -/
inductive SAction where
  | disconnected (client : Nat)
  | polled (pid : Nat) (k : Nat)
  | slept (pid : Nat) (ms : Nat)
  | killed (pid : Nat)
  | waited (pid : Nat)
deriving DecidableEq

/-- The per-child poll loop of `maa_stop_agent`: while less than 5000 ms have
elapsed, `try_wait` the child; on `running` sleep 100 ms and repeat; on
`exited` stop with success; on a poll error stop without success.  `beh k`
is the outcome of the `k`-th poll; elapsed time advances only by the sleeps. -/
def pollLoop (beh : Nat → PollRes) (pid : Nat) (elapsed k : Nat) : Bool × List SAction :=
  if elapsed < 5000 then
    match beh k with
    | .exited => (true, [.polled pid k])
    | .errored => (false, [.polled pid k])
    | .running =>
      let r := pollLoop beh pid (elapsed + 100) (k + 1)
      (r.1, .polled pid k :: .slept pid 100 :: r.2)
  else (false, [])
termination_by 5000 - elapsed
decreasing_by omega

/-- Shutdown of one child: poll with its own fresh 5-second window; if it did
not exit cooperatively, kill it and then reap it. -/
def waitOrKillChild (beh : Nat → PollRes) (pid : Nat) : List SAction :=
  let r := pollLoop beh pid 0 0
  r.2 ++ (if r.1 then [] else [.killed pid, .waited pid])

/-- `maa_stop_agent`: take all agent clients and children out of the
instance under the lock, then (in the background) disconnect every client
and shut down every child in order. `beh pid` gives the poll outcomes of the
child with that pid. -/
def maa_stop_agent (instOpt : Option AgentInstance) (beh : Nat → Nat → PollRes) :
    Except String Unit × Option AgentInstance × List SAction :=
  match instOpt with
  | none => (.error "Instance not found", none, [])
  | some inst =>
    let inst1 := { inst with agent_clients := [], agent_children := [] }
    if inst.agent_clients.isEmpty && inst.agent_children.isEmpty then
      (.ok (), some inst1, [])
    else
      (.ok (), some inst1,
        inst.agent_clients.map SAction.disconnected
          ++ inst.agent_children.flatMap (fun pid => waitOrKillChild (beh pid) pid))

end AgentCmd

namespace Legacy

/- ===== Embedding of src/src-tauri/src/maa_commands.rs ===== -/

/-- `InstanceRuntime` of `maa_commands.rs`: raw native handles plus the
single legacy agent pair and the cached task ids. -/
structure InstanceR where
  resource : Option Nat
  controller : Option Nat
  tasker : Option Nat
  agent_client : Option Nat
  agent_child : Option Nat
  task_ids : List Int
deriving DecidableEq

/-- The freshly created instance stored by `maa_create_instance`
(`InstanceRuntime::default`). -/
def defaultInstanceR : InstanceR :=
  { resource := none, controller := none, tasker := none,
    agent_client := none, agent_child := none, task_ids := [] }

/-- Externally visible native-handle actions of the legacy commands. -/
inductive RAction where
  | resourceCreated (h : Nat)
  | resourceDestroyed (h : Nat)
  | controllerCreated (h : Nat)
  | controllerDestroyed (h : Nat)
  | taskerCreated (h : Nat)
  | taskerDestroyed (h : Nat)
  | stopPosted (t : Nat)
  | taskPosted (t : Nat) (id : Int)
deriving DecidableEq

/-- `maa_connect_controller`: create the controller (oracle `newCtrl`,
`none` models a null pointer), post the connection (oracle `connId`), then
under the lock destroy any previous controller and store the new one. -/
def maa_connect_controller (libInited : Bool) (instOpt : Option InstanceR)
    (newCtrl : Option Nat) (connId : Int) :
    Except String Int × Option InstanceR × List RAction :=
  if libInited = false then (.error "MaaFramework not initialized", instOpt, [])
  else
    match newCtrl with
    | none => (.error "Failed to create controller", instOpt, [])
    | some ctrl =>
      if connId = MAA_INVALID_ID then
        (.error "Failed to post connection", instOpt,
          [.controllerCreated ctrl, .controllerDestroyed ctrl])
      else
        match instOpt with
        | none => (.error "Instance not found", none, [.controllerCreated ctrl])
        | some inst =>
          let destroyOld := match inst.controller with
            | some old => [RAction.controllerDestroyed old]
            | none => []
          (.ok connId, some { inst with controller := some ctrl },
            RAction.controllerCreated ctrl :: destroyOld)

/-- `maa_load_resource`: create and store a resource if the instance has
none (oracle `newRes`), then post every bundle path, skipping the ones the
engine rejects (oracle `postBundle`, by path index). -/
def maa_load_resource (libInited : Bool) (instOpt : Option InstanceR)
    (newRes : Option Nat) (postBundle : Nat → Int) (paths : List String) :
    Except String (List Int) × Option InstanceR × List RAction :=
  if libInited = false then (.error "MaaFramework not initialized", instOpt, [])
  else
    match instOpt with
    | none => (.error "Instance not found", none, [])
    | some inst =>
      match inst.resource with
      | none =>
        match newRes with
        | none => (.error "Failed to create resource", some inst, [])
        | some r =>
          let ids := (List.range paths.length).filterMap
            (fun i => if postBundle i = MAA_INVALID_ID then none else some (postBundle i))
          (.ok ids, some { inst with resource := some r }, [.resourceCreated r])
      | some _ =>
        let ids := (List.range paths.length).filterMap
          (fun i => if postBundle i = MAA_INVALID_ID then none else some (postBundle i))
        (.ok ids, some inst, [])

/-- `maa_destroy_resource`: destroy the stored resource, and also destroy
the tasker (it was bound to the destroyed resource). -/
def maa_destroy_resource (libInited : Bool) (instOpt : Option InstanceR) :
    Except String Unit × Option InstanceR × List RAction :=
  if libInited = false then (.error "MaaFramework not initialized", instOpt, [])
  else
    match instOpt with
    | none => (.error "Instance not found", none, [])
    | some inst =>
      let acts1 := match inst.resource with
        | some r => [RAction.resourceDestroyed r]
        | none => []
      let acts2 := match inst.tasker with
        | some t => [RAction.taskerDestroyed t]
        | none => []
      (.ok (), some { inst with resource := none, tasker := none }, acts1 ++ acts2)

/-- `maa_run_task`: require resource and controller, create/bind and store a
tasker if none exists (oracle `newTasker`), check `inited`, post the task
(oracle `postId`) and cache a valid id. -/
def maa_run_task (libInited : Bool) (instOpt : Option InstanceR)
    (newTasker : Option Nat) (inited : Bool) (postId : Int) :
    Except String Int × Option InstanceR × List RAction :=
  if libInited = false then (.error "MaaFramework not initialized", instOpt, [])
  else
    match instOpt with
    | none => (.error "Instance not found", none, [])
    | some inst =>
      match inst.resource with
      | none => (.error "Resource not loaded", some inst, [])
      | some _ =>
        match inst.controller with
        | none => (.error "Controller not connected", some inst, [])
        | some _ =>
          let ensure : Except String (InstanceR × Nat × List RAction) :=
            match inst.tasker with
            | some t => .ok (inst, t, [])
            | none =>
              match newTasker with
              | none => .error "Failed to create tasker"
              | some t => .ok ({ inst with tasker := some t }, t, [.taskerCreated t])
          match ensure with
          | .error e => (.error e, some inst, [])
          | .ok (inst1, t, acts) =>
            if inited = false then
              (.error "Tasker not properly initialized", some inst1, acts)
            else if postId = MAA_INVALID_ID then
              (.error "Failed to post task", some inst1, acts ++ [.taskPosted t postId])
            else
              (.ok postId, some { inst1 with task_ids := inst1.task_ids ++ [postId] },
                acts ++ [.taskPosted t postId])

/-- `maa_stop_task`: clear the cached task ids, then require the tasker and
post the stop request. -/
def maa_stop_task (libInited : Bool) (instOpt : Option InstanceR) :
    Except String Unit × Option InstanceR × List RAction :=
  if libInited = false then (.error "MaaFramework not initialized", instOpt, [])
  else
    match instOpt with
    | none => (.error "Instance not found", none, [])
    | some inst =>
      let inst1 := { inst with task_ids := [] }
      match inst.tasker with
      | none => (.error "Tasker not created", some inst1, [])
      | some t => (.ok (), some inst1, [.stopPosted t])

/-- Commands on one instance, used to define which instance states are
reachable through the legacy command set. -/
inductive RCmd where
  | loadRes (newRes : Option Nat) (paths : List String)
  | connectCtrl (newCtrl : Option Nat) (connId : Int)
  | runTask (newTasker : Option Nat) (inited : Bool) (postId : Int)
  | destroyRes
  | stopTask
  | destroyInst

/-- The state transition of one legacy command (the state component of the
corresponding embedded command, with the library initialized). -/
def rstep (inst : Option InstanceR) : RCmd → Option InstanceR
  | .loadRes newRes paths => (maa_load_resource true inst newRes (fun _ => MAA_INVALID_ID) paths).2.1
  | .connectCtrl newCtrl connId => (maa_connect_controller true inst newCtrl connId).2.1
  | .runTask newTasker inited postId => (maa_run_task true inst newTasker inited postId).2.1
  | .destroyRes => (maa_destroy_resource true inst).2.1
  | .stopTask => (maa_stop_task true inst).2.1
  | .destroyInst => none

/-- Instance state reached by running the given commands on a freshly
created instance. -/
def rrun (cmds : List RCmd) : Option InstanceR :=
  cmds.foldl rstep (some defaultInstanceR)

/-- The registry: map from instance identifier to instance runtime,
embedded as an association list with distinct keys. -/
def Registry : Type := List (String × InstanceR)

/-- Registry lookup (`HashMap::get`). -/
def regLookup (reg : Registry) (instance_id : String) : Option InstanceR :=
  (List.find? (fun p => p.1 == instance_id) reg).map (fun p => p.2)

/-- `maa_destroy_instance`: remove the identifier from the registry; a
missing identifier is only logged, the command still returns `Ok`. -/
def maa_destroy_instance (reg : Registry) (instance_id : String) :
    Except String Unit × Registry :=
  (.ok (), List.filter (fun p => !(p.1 == instance_id)) reg)

/-- The task-submission loop of the legacy `maa_start_tasks`
(`maa_commands.rs`): post every task in input order and collect the ids the
engine accepted, skipping the entries it rejected with `MAA_INVALID_ID`. -/
def submitTasksLegacy (post : Nat → Int) : Nat → List AgentCmd.TaskConfig → List Int
  | _, [] => []
  | idx, _task :: rest =>
    if post idx = MAA_INVALID_ID then submitTasksLegacy post (idx + 1) rest
    else post idx :: submitTasksLegacy post (idx + 1) rest

end Legacy

namespace PipeReader

/- ===== Embedding of the Process Pipe Reader (emit_agent_output, the
stdout/stderr reader threads and strip_ansi_escapes) ===== -/

/-- Rust `str::trim_end`: drop trailing whitespace. -/
def rustTrimEnd (s : String) : String :=
  String.mk ((s.toList.reverse.dropWhile Char.isWhitespace).reverse)

/-- A character allowed in the parameter part of a CSI escape sequence
(regex class `[0-9;?]`). -/
def isCsiParam (c : Char) : Bool :=
  c.isDigit || c = ';' || c = '?'

/-- Match the tail of a CSI sequence (`[0-9;?]*[A-Za-z]` after `ESC [`),
returning the remaining input on success. -/
def csiMatch (cs : List Char) : Option (List Char) :=
  match cs.dropWhile isCsiParam with
  | c :: rest => if c.isAlpha then some rest else none
  | [] => none

/-- Match the tail of an OSC sequence (`[^\x07]*\x07?` after `ESC ]`),
returning the remaining input; this pattern always matches. -/
def oscMatch (cs : List Char) : List Char :=
  match cs.dropWhile (fun c => !(c = '\x07')) with
  | _ :: rest => rest
  | [] => []

/-- One left-to-right pass of `Regex::replace_all` with the pattern
`\x1b\[[0-9;?]*[A-Za-z]|\x1b\][^\x07]*\x07?`: at each position try the CSI
branch, then the OSC branch; on a match drop it, otherwise keep the
character.  `fuel` bounds the recursion; every step consumes at least one
character, so `fuel = length` is enough. -/
def stripAnsiAux : Nat → List Char → List Char
  | 0, cs => cs
  | _ + 1, [] => []
  | fuel + 1, c :: cs =>
    if c = '\x1b' then
      match cs with
      | c2 :: rest =>
        if c2 = '[' then
          match csiMatch rest with
          | some rest' => stripAnsiAux fuel rest'
          | none => c :: stripAnsiAux fuel cs
        else if c2 = ']' then
          stripAnsiAux fuel (oscMatch rest)
        else c :: stripAnsiAux fuel cs
      | [] => c :: stripAnsiAux fuel cs
    else c :: stripAnsiAux fuel cs

/-- `strip_ansi_escapes` on character lists, with the canonical fuel. -/
def stripAnsiL (cs : List Char) : List Char :=
  stripAnsiAux cs.length cs

/-- `strip_ansi_escapes`: remove ANSI terminal escape sequences. -/
def strip_ansi_escapes (s : String) : String :=
  String.mk (stripAnsiL s.toList)

/-- Payload of the `maa-agent-output` event (`AgentOutputEvent`). -/
structure AgentOutputEvent where
  instance_id : String
  stream : String
  line : String
deriving DecidableEq

/-- `emit_agent_output`: forward one line as an event, stripping ANSI
escape sequences from it. -/
def emit_agent_output (instance_id stream line : String) : AgentOutputEvent :=
  { instance_id := instance_id, stream := stream, line := strip_ansi_escapes line }

/-- One iteration of a reader thread on a raw line (terminator included):
trim the end, append `"{timestamp} [{stream}] {clean}"` to the log file and
emit the event for the same cleaned line.  Returns the logged line and the
emitted event. -/
def readerStep (instance_id stream timestamp raw : String) : String × AgentOutputEvent :=
  let clean := rustTrimEnd raw
  (timestamp ++ " [" ++ stream ++ "] " ++ clean,
    emit_agent_output instance_id stream clean)

end PipeReader

namespace Examples

/-- A launch oracle in which every engine/OS step succeeds
(client handle 10, child pid 100). -/
def okEnv : AgentCmd.AgentEnv :=
  { createTcp := .error "tcp unavailable", createDefault := .ok 10, bindResult := .ok (),
    identifier := some "sock-0", execPath := "/work/agent", spawnResult := .ok 100,
    connectResult := .ok (), sinksResult := .ok () }

/-- A launch oracle failing at the connect handshake with the engine
message "timeout" (client handle 11, child pid 101). -/
def connectFailEnv : AgentCmd.AgentEnv :=
  { createTcp := .error "tcp unavailable", createDefault := .ok 11, bindResult := .ok (),
    identifier := some "sock-1", execPath := "/work/agent", spawnResult := .ok 101,
    connectResult := .error "timeout", sinksResult := .ok () }

/-- An instance that already holds a resource, a controller and a tasker. -/
def readyInst : AgentCmd.AgentInstance :=
  { resource := some 1, controller := some 2, tasker := some 3,
    agent_clients := [], agent_children := [], task_ids := [] }

/-- A start-tasks oracle with an initialized tasker; posting task `i`
yields id `i + 41`. -/
def stEnv : AgentCmd.StartTasksEnv :=
  { taskerNew := .error "unused", addSink := .ok (), addContextSink := .ok (),
    taskerBind := .ok (), inited := true,
    postTask := fun i => some (Int.ofNat i + 41) }

/-- Three task entries. -/
def threeTasks : List AgentCmd.TaskConfig :=
  [{ entry := "A", pipeline_override := "\x7b\x7d" },
   { entry := "B", pipeline_override := "\x7b\x7d" },
   { entry := "C", pipeline_override := "\x7b\x7d" }]

/-- A legacy instance holding resource 1, controller 2 and tasker 3. -/
def legacyInst : Legacy.InstanceR :=
  { resource := some 1, controller := some 2, tasker := some 3,
    agent_client := none, agent_child := none, task_ids := [] }

/-- Post oracle where task 1 (the second task) fails and every other
task `i` is accepted with id `i + 41`. -/
def c5post : Nat → Option Int :=
  fun i => if i = 1 then none else some (Int.ofNat i + 41)

/-- Legacy post oracle where task 1 returns the invalid id and every other
task `i` is accepted with id `i + 41`. -/
def c5postL : Nat → Int :=
  fun i => if i = 1 then 0 else Int.ofNat i + 41

/-- An instance owning one agent client (5) and one agent child (6). -/
def c3Inst : AgentCmd.AgentInstance :=
  { resource := some 1, controller := some 2, tasker := some 3,
    agent_clients := [5], agent_children := [6], task_ids := [] }

/-- Poll behaviour of a child that exits cooperatively at the first poll. -/
def c3Beh : Nat → Nat → AgentCmd.PollRes :=
  fun _pid k => if k = 0 then AgentCmd.PollRes.exited else AgentCmd.PollRes.running

end Examples

/- ===================== Theorems ===================== -/

section Theorems

open AgentCmd Legacy PipeReader Examples

/- ---- basic helper lemmas ---- -/

theorem listIsPre_spec : ∀ needle hay : List Char,
    listIsPre needle hay = true ↔ needle <+: hay := by
  intro needle
  induction needle with
  | nil => intro hay; simp [listIsPre]
  | cons a as ih =>
    intro hay
    cases hay with
    | nil => simp [listIsPre]
    | cons b bs =>
      simp only [listIsPre, Bool.and_eq_true, decide_eq_true_eq, List.cons_prefix_cons]
      constructor
      · rintro ⟨h1, h2⟩; exact ⟨h1, (ih bs).1 h2⟩
      · rintro ⟨h1, h2⟩; exact ⟨h1, (ih bs).2 h2⟩

theorem listInfixB_spec : ∀ hay needle : List Char,
    listInfixB needle hay = true ↔ needle <:+: hay := by
  intro hay
  induction hay with
  | nil =>
    intro needle
    rw [show listInfixB needle [] = listIsPre needle [] from rfl, listIsPre_spec]
    simp
  | cons b bs ih =>
    intro needle
    rw [show listInfixB needle (b :: bs)
          = (listIsPre needle (b :: bs) || listInfixB needle bs) from rfl]
    rw [List.infix_cons_iff]
    simp [listIsPre_spec, ih]

/-- `strContainsSub` agrees with substring occurrence on the underlying
character lists. -/
theorem strContainsSub_spec (hay needle : String) :
    strContainsSub hay needle = true ↔ needle.toList <:+: hay.toList := by
  rw [strContainsSub, listInfixB_spec]

/-- A successful `ensureTasker` only stores the tasker; every other field of
the instance is untouched. -/
theorem ensureTasker_ok :
    ∀ (inst : AgentInstance) (env : StartTasksEnv) (inst1 : AgentInstance) (t : Nat),
      ensureTasker inst env = .ok (inst1, t) →
      inst1 = { inst with tasker := some t } := by
  intro inst env inst1 t h
  obtain ⟨r, c, tk, ac, ach, ti⟩ := inst
  cases r with
  | none => simp [ensureTasker] at h
  | some rh =>
    cases c with
    | none => simp [ensureTasker] at h
    | some ch =>
      cases tk with
      | some t0 =>
        simp only [ensureTasker] at h
        cases h
        rfl
      | none =>
        cases hn : env.taskerNew with
        | error e => simp [ensureTasker, hn] at h
        | ok tn =>
          cases ha : env.addSink with
          | error e => simp [ensureTasker, hn, ha] at h
          | ok _ =>
            cases hb : env.addContextSink with
            | error e => simp [ensureTasker, hn, ha, hb] at h
            | ok _ =>
              cases hc : env.taskerBind with
              | error e => simp [ensureTasker, hn, ha, hb, hc] at h
              | ok _ =>
                simp only [ensureTasker, hn, ha, hb, hc] at h
                cases h
                rfl

/-- C10: `maa_destroy_instance` returns `Ok` for every registry state and
every identifier — present or absent — and afterwards the identifier is
absent from the registry. -/
theorem c10_destroy_instance_total :
    ∀ (reg : Registry) (instance_id : String),
      (maa_destroy_instance reg instance_id).1 = .ok () ∧
      regLookup (maa_destroy_instance reg instance_id).2 instance_id = none := by
  intro reg instance_id
  refine ⟨rfl, ?_⟩
  induction reg with
  | nil => rfl
  | cons p rest ih =>
    by_cases h : p.1 == instance_id
    · simp only [maa_destroy_instance, regLookup, List.filter_cons, h,
        Bool.not_true, cond_false]
      exact ih
    · simp only [maa_destroy_instance, regLookup, List.filter_cons, h,
        Bool.not_false, cond_true, List.find?, Bool.false_eq_true]
      exact ih

/-- C4: when the tasker reports itself uninitialized, `maa_start_tasks`
returns the configuration error "Tasker not properly initialized" and posts
no task at all, whatever the task list and agent configuration. -/
theorem c4_tasker_not_inited :
    ∀ (inst0 : AgentInstance) (env : StartTasksEnv) (tasks : List TaskConfig)
      (agentEnvs : Option (List AgentEnv)) (tcp : Bool)
      (inst1 : AgentInstance) (t : Nat),
      ensureTasker inst0 env = .ok (inst1, t) →
      env.inited = false →
      maa_start_tasks (some inst0) env tasks agentEnvs tcp =
        (.error "Tasker not properly initialized", [inst1], []) ∧
      (∀ i, AAction.posted i ∉
        (maa_start_tasks (some inst0) env tasks agentEnvs tcp).2.2) := by
  intro inst0 env tasks agentEnvs tcp inst1 t h1 h2
  have hm : maa_start_tasks (some inst0) env tasks agentEnvs tcp =
      (.error "Tasker not properly initialized", [inst1], []) := by
    simp [maa_start_tasks, h1, h2]
  exact ⟨hm, by simp [hm]⟩

/-- Witness for C4 at a concrete instance, oracle and task list. -/
theorem c4_witness :
    maa_start_tasks (some Examples.readyInst) { Examples.stEnv with inited := false }
        Examples.threeTasks none false
      = (.error "Tasker not properly initialized", [Examples.readyInst], []) ∧
    (∀ i, AAction.posted i ∉
      (maa_start_tasks (some Examples.readyInst) { Examples.stEnv with inited := false }
        Examples.threeTasks none false).2.2) :=
  c4_tasker_not_inited Examples.readyInst { Examples.stEnv with inited := false }
    Examples.threeTasks none false Examples.readyInst 3 rfl rfl

/-- C9: a failed launch never leaks its own child: whenever
`start_single_agent` returns an error, every child it spawned it also
killed; a bind failure or a missing connection identifier produces an error
before any spawn; and a connect or sink-registration failure after a
successful spawn kills exactly the just-spawned child. -/
theorem c9_no_orphaned_child :
    ∀ (idx : Nat) (tcp : Bool) (env : AgentEnv),
      (∀ e, (start_single_agent idx tcp env).1 = .error e →
        ∀ pid, AAction.spawned pid ∈ (start_single_agent idx tcp env).2 →
          AAction.killed pid ∈ (start_single_agent idx tcp env).2) ∧
      (∀ e, env.bindResult = .error e →
        (∃ msg, (start_single_agent idx tcp env).1 = .error msg) ∧
          (start_single_agent idx tcp env).2 = []) ∧
      (env.identifier = none →
        (∃ msg, (start_single_agent idx tcp env).1 = .error msg) ∧
          (start_single_agent idx tcp env).2 = []) ∧
      (∀ c pid sid e, createClient tcp env = .ok c → env.bindResult = .ok () →
        env.identifier = some sid → env.spawnResult = .ok pid →
        env.connectResult = .error e →
        start_single_agent idx tcp env = (.error e, [.spawned pid, .killed pid])) ∧
      (∀ c pid sid e, createClient tcp env = .ok c → env.bindResult = .ok () →
        env.identifier = some sid → env.spawnResult = .ok pid →
        env.connectResult = .ok () → env.sinksResult = .error e →
        start_single_agent idx tcp env = (.error e, [.spawned pid, .killed pid])) := by
  intro idx tcp env
  refine ⟨?_, ?_, ?_, ?_, ?_⟩
  · intro e he pid hmem
    cases hc : createClient tcp env with
    | error e0 => simp [start_single_agent, hc] at hmem
    | ok c0 =>
      cases hb : env.bindResult with
      | error e1 => simp [start_single_agent, hc, hb] at hmem
      | ok u =>
        cases hi : env.identifier with
        | none => simp [start_single_agent, hc, hb, hi] at hmem
        | some sid =>
          cases hs : env.spawnResult with
          | error e2 => simp [start_single_agent, hc, hb, hi, hs] at hmem
          | ok p =>
            cases hcn : env.connectResult with
            | error e3 =>
              simp only [start_single_agent, hc, hb, hi, hs, hcn] at hmem ⊢
              simp at hmem
              simp [hmem]
            | ok u2 =>
              cases hk : env.sinksResult with
              | error e4 =>
                simp only [start_single_agent, hc, hb, hi, hs, hcn, hk] at hmem ⊢
                simp at hmem
                simp [hmem]
              | ok u3 =>
                simp [start_single_agent, hc, hb, hi, hs, hcn, hk] at he
  · intro e hb
    cases hc : createClient tcp env with
    | error e0 => exact ⟨⟨e0, by simp [start_single_agent, hc]⟩, by simp [start_single_agent, hc]⟩
    | ok c0 => exact ⟨⟨e, by simp [start_single_agent, hc, hb]⟩, by simp [start_single_agent, hc, hb]⟩
  · intro hi
    cases hc : createClient tcp env with
    | error e0 => exact ⟨⟨e0, by simp [start_single_agent, hc]⟩, by simp [start_single_agent, hc]⟩
    | ok c0 =>
      cases hb : env.bindResult with
      | error e1 =>
        exact ⟨⟨e1, by simp [start_single_agent, hc, hb]⟩, by simp [start_single_agent, hc, hb]⟩
      | ok u =>
        exact ⟨⟨"Failed to get identifier for agent #" ++ toString idx,
          by simp [start_single_agent, hc, hb, hi]⟩, by simp [start_single_agent, hc, hb, hi]⟩
  · intro c pid sid e hc hb hi hs hcn
    simp [start_single_agent, hc, hb, hi, hs, hcn]
  · intro c pid sid e hc hb hi hs hcn hk
    simp [start_single_agent, hc, hb, hi, hs, hcn, hk]

/-- Witness for C9: a concrete connect-handshake failure kills the
just-spawned child before the error is returned. -/
theorem c9_witness :
    start_single_agent 1 false Examples.connectFailEnv
      = (.error "timeout", [.spawned 101, .killed 101]) :=
  ((c9_no_orphaned_child 1 false Examples.connectFailEnv).2.2.2.1) 11 101 "sock-1"
    "timeout" rfl rfl rfl rfl rfl

/-- C6 counterexample: a state reachable through the legacy commands holds
a tasker created against controller 2, and `maa_connect_controller` then
replaces the controller with handle 4 while leaving that tasker alive and
issuing no tasker-destroy — so the tasker outlives the controller it was
bound to, contradicting the claim for `maa_connect_controller`. -/
theorem c6_counterexample :
    Legacy.rrun [.loadRes (some 1) [], .connectCtrl (some 2) 1, .runTask (some 3) true 5]
      = some { resource := some 1, controller := some 2, tasker := some 3,
               agent_client := none, agent_child := none, task_ids := [5] } ∧
    maa_connect_controller true
        (some { resource := some 1, controller := some 2, tasker := some 3,
                agent_client := none, agent_child := none, task_ids := [5] })
        (some 4) 2
      = (.ok 2,
         some { resource := some 1, controller := some 4, tasker := some 3,
                agent_client := none, agent_child := none, task_ids := [5] },
         [.controllerCreated 4, .controllerDestroyed 2]) :=
  ⟨rfl, rfl⟩

/-- C6 amended: `maa_destroy_resource` does destroy the tasker together
with the resource, but `maa_connect_controller` replaces the controller
without ever destroying a bound tasker, so only the resource half of the
lifetime invariant holds. -/
theorem c6_tasker_lifetime :
    (∀ inst : InstanceR,
      (maa_destroy_resource true (some inst)).2.1
          = some { inst with resource := none, tasker := none } ∧
      (∀ t, inst.tasker = some t →
        RAction.taskerDestroyed t ∈ (maa_destroy_resource true (some inst)).2.2)) ∧
    (∀ (inst : InstanceR) (newCtrl : Option Nat) (connId : Int),
      ∃ s, (maa_connect_controller true (some inst) newCtrl connId).2.1 = some s ∧
        s.tasker = inst.tasker ∧
        (∀ t, RAction.taskerDestroyed t ∉
          (maa_connect_controller true (some inst) newCtrl connId).2.2)) := by
  constructor
  · intro inst
    constructor
    · cases hr : inst.resource <;> cases ht : inst.tasker <;>
        simp [maa_destroy_resource, hr, ht]
    · intro t ht
      cases hr : inst.resource <;> simp [maa_destroy_resource, hr, ht]
  · intro inst newCtrl connId
    cases newCtrl with
    | none => exact ⟨inst, by simp [maa_connect_controller], rfl, by simp [maa_connect_controller]⟩
    | some ctrl =>
      by_cases hid : connId = MAA_INVALID_ID
      · exact ⟨inst, by simp [maa_connect_controller, hid], rfl,
          by simp [maa_connect_controller, hid]⟩
      · refine ⟨{ inst with controller := some ctrl },
          by simp [maa_connect_controller, hid], rfl, ?_⟩
        intro t
        cases hc : inst.controller <;> simp [maa_connect_controller, hid, hc]

/-- Witness for C6 amended at a concrete instance. -/
theorem c6_witness :
    (maa_destroy_resource true (some Examples.legacyInst)).2.1
      = some { Examples.legacyInst with resource := none, tasker := none } ∧
    RAction.taskerDestroyed 3 ∈
      (maa_destroy_resource true (some Examples.legacyInst)).2.2 :=
  ⟨(c6_tasker_lifetime.1 Examples.legacyInst).1,
   (c6_tasker_lifetime.1 Examples.legacyInst).2 3 rfl⟩

/-- C7 counterexample: `maa_stop_task` on an instance without a tasker
returns "Tasker not created" but has already cleared the cached task ids,
so the failing call does not leave the instance unchanged. -/
theorem c7_counterexample :
    maa_stop_task true (some { Legacy.defaultInstanceR with task_ids := [7] })
      = (.error "Tasker not created", some Legacy.defaultInstanceR, []) ∧
    (maa_stop_task true (some { Legacy.defaultInstanceR with task_ids := [7] })).2.1
      ≠ some { Legacy.defaultInstanceR with task_ids := [7] } := by
  exact ⟨rfl, by decide⟩

/-- C7 amended: the two named configuration errors are side-effect free
except as follows — `maa_stop_task` failing with "Tasker not created" has
cleared the cached task ids (all other fields unchanged), and
`maa_start_tasks` failing with "Tasker not properly initialized" may have
stored a freshly created tasker (every other field unchanged; when a tasker
already existed the instance is fully unchanged). -/
theorem c7_config_error_side_effects :
    (∀ inst : InstanceR, inst.tasker = none →
      maa_stop_task true (some inst)
        = (.error "Tasker not created", some { inst with task_ids := [] }, [])) ∧
    (∀ (inst0 : AgentInstance) (env : StartTasksEnv) (tasks : List TaskConfig)
        (agentEnvs : Option (List AgentEnv)) (tcp : Bool)
        (inst1 : AgentInstance) (t : Nat),
      ensureTasker inst0 env = .ok (inst1, t) → env.inited = false →
      maa_start_tasks (some inst0) env tasks agentEnvs tcp
          = (.error "Tasker not properly initialized", [inst1], []) ∧
      inst1.resource = inst0.resource ∧ inst1.controller = inst0.controller ∧
      inst1.agent_clients = inst0.agent_clients ∧
      inst1.agent_children = inst0.agent_children ∧
      inst1.task_ids = inst0.task_ids ∧
      (inst0.tasker = some t → inst1 = inst0)) := by
  constructor
  · intro inst ht
    simp [maa_stop_task, ht]
  · intro inst0 env tasks agentEnvs tcp inst1 t h1 h2
    have hfields := ensureTasker_ok inst0 env inst1 t h1
    refine ⟨by simp [maa_start_tasks, h1, h2], ?_, ?_, ?_, ?_, ?_, ?_⟩
    · rw [hfields]
    · rw [hfields]
    · rw [hfields]
    · rw [hfields]
    · rw [hfields]
    · intro hsome
      rw [hfields]
      obtain ⟨r, c, tk, ac, ach, ti⟩ := inst0
      simp only at hsome
      rw [hsome]

/-- A launch whose oracle reports success at every step runs to `.ok` and
its trace is exactly the spawn of its child. -/
theorem launchOk_run :
    ∀ (tcp : Bool) (env : AgentEnv), launchOk tcp env = true →
      ∀ idx, ∃ c p, start_single_agent idx tcp env = (.ok (c, p), [.spawned p]) := by
  intro tcp env h idx
  cases hc : createClient tcp env with
  | error e => simp [launchOk, hc] at h
  | ok c =>
    cases hb : env.bindResult with
    | error e => simp [launchOk, hc, hb] at h
    | ok u =>
      cases hi : env.identifier with
      | none => simp [launchOk, hc, hb, hi] at h
      | some sid =>
        cases hs : env.spawnResult with
        | error e => simp [launchOk, hc, hb, hi, hs] at h
        | ok p =>
          cases hcn : env.connectResult with
          | error e => simp [launchOk, hc, hb, hi, hs, hcn] at h
          | ok u2 =>
            cases hk : env.sinksResult with
            | error e => simp [launchOk, hc, hb, hi, hs, hcn, hk] at h
            | ok u3 =>
              exact ⟨c, p, by simp [start_single_agent, hc, hb, hi, hs, hcn, hk]⟩

/-- A launch whose oracle fails at some step produces an error. -/
theorem launchFail_run :
    ∀ (tcp : Bool) (env : AgentEnv), launchOk tcp env = false →
      ∀ idx, ∃ msg, (start_single_agent idx tcp env).1 = .error msg := by
  intro tcp env h idx
  cases hc : createClient tcp env with
  | error e => exact ⟨e, by simp [start_single_agent, hc]⟩
  | ok c =>
    cases hb : env.bindResult with
    | error e => exact ⟨e, by simp [start_single_agent, hc, hb]⟩
    | ok u =>
      cases hi : env.identifier with
      | none =>
        exact ⟨"Failed to get identifier for agent #" ++ toString idx,
          by simp [start_single_agent, hc, hb, hi]⟩
      | some sid =>
        cases hs : env.spawnResult with
        | error e =>
          exact ⟨"Failed to spawn agent #" ++ toString idx ++ ": " ++ e
              ++ " (path: " ++ env.execPath ++ ")",
            by simp [start_single_agent, hc, hb, hi, hs]⟩
        | ok p =>
          cases hcn : env.connectResult with
          | error e => exact ⟨e, by simp [start_single_agent, hc, hb, hi, hs, hcn]⟩
          | ok u2 =>
            cases hk : env.sinksResult with
            | error e => exact ⟨e, by simp [start_single_agent, hc, hb, hi, hs, hcn, hk]⟩
            | ok u3 => simp [launchOk, hc, hb, hi, hs, hcn, hk] at h

/-- Batch loop, all-success case: the accumulators are extended by exactly
one client and one child per specification and the trace is the spawns in
order. -/
theorem startAgents_all_ok :
    ∀ (envs : List AgentEnv) (tcp : Bool), (∀ e ∈ envs, launchOk tcp e = true) →
      ∀ idx accC accCh, ∃ cl ch,
        startAgents tcp idx accC accCh envs
          = (.ok (accC ++ cl, accCh ++ ch), ch.map AAction.spawned) ∧
        cl.length = envs.length ∧ ch.length = envs.length := by
  intro envs tcp
  induction envs with
  | nil =>
    intro h idx accC accCh
    exact ⟨[], [], by simp [startAgents], rfl, rfl⟩
  | cons e rest ih =>
    intro h idx accC accCh
    obtain ⟨c, p, hrunE⟩ := launchOk_run tcp e (h e (List.mem_cons_self e rest)) idx
    obtain ⟨cl, ch, hrec, hl1, hl2⟩ :=
      ih (fun x hx => h x (List.mem_cons_of_mem e hx)) (idx + 1) (accC ++ [c]) (accCh ++ [p])
    refine ⟨c :: cl, p :: ch, ?_, by simp [hl1], by simp [hl2]⟩
    simp only [startAgents, hrunE, hrec]
    simp

/-- Batch loop, first-failure case: with an all-success prefix `pre` and a
failing launch `bad`, the loop returns the aggregated error of the launch
at index `idx + pre.length`, and its trace is the prefix spawns, the
failing launch's own actions, then a disconnect of every accumulated client
and a kill-and-wait of every accumulated child. -/
theorem startAgents_fail :
    ∀ (pre : List AgentEnv) (tcp : Bool), (∀ e ∈ pre, launchOk tcp e = true) →
      ∀ (bad : AgentEnv), launchOk tcp bad = false →
      ∀ (rest : List AgentEnv) (idx : Nat) (accC accCh : List Nat), ∃ cl ch msg,
        (start_single_agent (idx + pre.length) tcp bad).1 = .error msg ∧
        startAgents tcp idx accC accCh (pre ++ bad :: rest)
          = (.error ("Agent start failed: " ++ msg),
             ch.map AAction.spawned ++ (start_single_agent (idx + pre.length) tcp bad).2
               ++ (accC ++ cl).map AAction.disconnected
               ++ (accCh ++ ch).flatMap (fun p => [AAction.killed p, AAction.waited p])) ∧
        cl.length = pre.length ∧ ch.length = pre.length := by
  intro pre tcp
  induction pre with
  | nil =>
    intro _h bad hbad rest idx accC accCh
    obtain ⟨msg, hmsg⟩ := launchFail_run tcp bad hbad idx
    rcases hs : start_single_agent idx tcp bad with ⟨r1, acts⟩
    rw [hs] at hmsg
    simp only at hmsg
    subst hmsg
    refine ⟨[], [], msg, ?_, ?_, rfl, rfl⟩
    · simp [hs]
    · simp [startAgents, hs]
  | cons e pre' ih =>
    intro h bad hbad rest idx accC accCh
    obtain ⟨c, p, hrunE⟩ := launchOk_run tcp e (h e (List.mem_cons_self e pre')) idx
    obtain ⟨cl, ch, msg, hmsg, hrec, hl1, hl2⟩ :=
      ih (fun x hx => h x (List.mem_cons_of_mem e hx)) bad hbad rest (idx + 1)
        (accC ++ [c]) (accCh ++ [p])
    have hidx : idx + (e :: pre').length = idx + 1 + pre'.length := by
      simp [List.length_cons]
      omega
    refine ⟨c :: cl, p :: ch, msg, ?_, ?_, by simp [hl1], by simp [hl2]⟩
    · rw [hidx]
      exact hmsg
    · have hunfold : startAgents tcp idx accC accCh ((e :: pre') ++ bad :: rest)
          = ((startAgents tcp (idx + 1) (accC ++ [c]) (accCh ++ [p]) (pre' ++ bad :: rest)).1,
             [AAction.spawned p]
               ++ (startAgents tcp (idx + 1) (accC ++ [c]) (accCh ++ [p])
                     (pre' ++ bad :: rest)).2) := by
        simp only [List.cons_append, startAgents, hrunE]
        rfl
      rw [hunfold, hrec, hidx]
      simp [List.append_assoc]

/-- C1 counterexample: a two-agent batch whose second launch fails at the
connect handshake with the engine message "timeout" returns the error
"Agent start failed: timeout", which does not name the failing index 1 —
so the claim that the returned error names the failing index is false. -/
theorem c1_counterexample :
    (maa_start_tasks (some Examples.readyInst) Examples.stEnv []
        (some [Examples.okEnv, Examples.connectFailEnv]) false).1
      = .error "Agent start failed: timeout" ∧
    strContainsSub "Agent start failed: timeout" "1" = false := by
  exact ⟨rfl, rfl⟩

/-- C1 amended: on the first launch failure at index `k = pre.length`,
every previously succeeded client is disconnected, every previously
succeeded child is killed and then waited, the instance's agent collections
are left unchanged, and the call returns an aggregated error naming the
cause (the failing index appears in the error only for spawn and
identifier failures; otherwise it is only logged). -/
theorem c1_batch_rollback :
    ∀ (inst0 : AgentInstance) (env : StartTasksEnv) (tasks : List TaskConfig)
      (tcp : Bool) (pre : List AgentEnv) (bad : AgentEnv) (rest : List AgentEnv)
      (inst1 : AgentInstance) (t : Nat),
      ensureTasker inst0 env = .ok (inst1, t) →
      env.inited = true →
      (∀ e ∈ pre, launchOk tcp e = true) →
      launchOk tcp bad = false →
      ∃ (clients children : List Nat) (msg : String),
        clients.length = pre.length ∧ children.length = pre.length ∧
        (start_single_agent pre.length tcp bad).1 = .error msg ∧
        maa_start_tasks (some inst0) env tasks (some (pre ++ bad :: rest)) tcp
          = (.error ("Agent start failed: " ++ msg), [inst1],
             children.map AAction.spawned ++ (start_single_agent pre.length tcp bad).2
               ++ clients.map AAction.disconnected
               ++ children.flatMap (fun p => [AAction.killed p, AAction.waited p])) ∧
        inst1.agent_clients = inst0.agent_clients ∧
        inst1.agent_children = inst0.agent_children := by
  intro inst0 env tasks tcp pre bad rest inst1 t h1 h2 hpre hbad
  obtain ⟨cl, ch, msg, hmsg, hrunB, hl1, hl2⟩ := startAgents_fail pre tcp hpre bad hbad rest 0 [] []
  rw [Nat.zero_add] at hmsg hrunB
  have hfields := ensureTasker_ok inst0 env inst1 t h1
  have hne : (pre ++ bad :: rest).isEmpty = false := by cases pre <;> simp
  refine ⟨cl, ch, msg, hl1, hl2, hmsg, ?_, by rw [hfields], by rw [hfields]⟩
  simp only [maa_start_tasks, h1, h2, hne, hrunB]
  simp

/-- Witness for C1 amended at a concrete batch (one success, then a
connect failure). -/
theorem c1_witness :
    ∃ (clients children : List Nat) (msg : String),
      clients.length = [Examples.okEnv].length ∧
      children.length = [Examples.okEnv].length ∧
      (start_single_agent [Examples.okEnv].length false Examples.connectFailEnv).1
        = .error msg ∧
      maa_start_tasks (some Examples.readyInst) Examples.stEnv []
          (some ([Examples.okEnv] ++ Examples.connectFailEnv :: [])) false
        = (.error ("Agent start failed: " ++ msg), [Examples.readyInst],
           children.map AAction.spawned
             ++ (start_single_agent [Examples.okEnv].length false Examples.connectFailEnv).2
             ++ clients.map AAction.disconnected
             ++ children.flatMap (fun p => [AAction.killed p, AAction.waited p])) ∧
      Examples.readyInst.agent_clients = Examples.readyInst.agent_clients ∧
      Examples.readyInst.agent_children = Examples.readyInst.agent_children :=
  c1_batch_rollback Examples.readyInst Examples.stEnv [] false
    [Examples.okEnv] Examples.connectFailEnv [] Examples.readyInst 3
    rfl rfl (by intro e he; rw [List.mem_singleton] at he; subst he; rfl) rfl

/-- C2: with every launch in the batch succeeding, the run returns `Ok`,
the final registry state has both agent collections extended by exactly the
batch length, and every state that becomes observable at a lock boundary
keeps the two collections at equal lengths (no observer ever sees a
mismatch). -/
theorem c2_batch_atomic_append :
    ∀ (inst0 : AgentInstance) (env : StartTasksEnv) (tasks : List TaskConfig)
      (envs : List AgentEnv) (tcp : Bool) (inst1 : AgentInstance) (t : Nat),
      ensureTasker inst0 env = .ok (inst1, t) →
      env.inited = true →
      (∀ e ∈ envs, launchOk tcp e = true) →
      inst0.agent_clients.length = inst0.agent_children.length →
      ∃ (ids : List Int) (states : List AgentInstance) (acts : List AAction),
        maa_start_tasks (some inst0) env tasks (some envs) tcp = (.ok ids, states, acts) ∧
        (∃ fin, states.getLast? = some fin ∧
          fin.agent_clients.length = inst0.agent_clients.length + envs.length ∧
          fin.agent_children.length = inst0.agent_children.length + envs.length) ∧
        (∀ s ∈ states, s.agent_clients.length = s.agent_children.length) := by
  intro inst0 env tasks envs tcp inst1 t h1 h2 hok hlen
  have hfields := ensureTasker_ok inst0 env inst1 t h1
  cases envs with
  | nil =>
    refine ⟨(submitTasks env.postTask 0 tasks).1,
      [inst1, { inst1 with task_ids := (submitTasks env.postTask 0 tasks).1 }],
      (submitTasks env.postTask 0 tasks).2, ?_, ?_, ?_⟩
    · simp [maa_start_tasks, h1, h2]
    · refine ⟨{ inst1 with task_ids := (submitTasks env.postTask 0 tasks).1 }, rfl, ?_, ?_⟩
      · simp [hfields]
      · simp [hfields]
    · intro s hs
      simp only [List.mem_cons, List.not_mem_nil, or_false] at hs
      rcases hs with rfl | rfl
      · simp [hfields, hlen]
      · simp [hfields, hlen]
  | cons e0 erest =>
    obtain ⟨cl, ch, hsa, hl1, hl2⟩ := startAgents_all_ok (e0 :: erest) tcp hok 0 [] []
    rw [List.nil_append, List.nil_append] at hsa
    refine ⟨(submitTasks env.postTask 0 tasks).1,
      [inst1,
       { inst1 with agent_clients := inst1.agent_clients ++ cl,
                    agent_children := inst1.agent_children ++ ch },
       { inst1 with agent_clients := inst1.agent_clients ++ cl,
                    agent_children := inst1.agent_children ++ ch,
                    task_ids := (submitTasks env.postTask 0 tasks).1 }],
      ch.map AAction.spawned ++ (submitTasks env.postTask 0 tasks).2, ?_, ?_, ?_⟩
    · simp only [maa_start_tasks, h1, h2, hsa]
      simp
    · refine ⟨_, rfl, ?_, ?_⟩
      · simp [hfields, hl1]
      · simp [hfields, hl2]
    · intro s hs
      simp only [List.mem_cons, List.not_mem_nil, or_false] at hs
      rcases hs with rfl | rfl | rfl
      · simp [hfields, hlen]
      · simp [hfields, hlen, hl1, hl2]
      · simp [hfields, hlen, hl1, hl2]

/-- Witness for C2 at a concrete one-agent batch. -/
theorem c2_witness :
    ∃ (ids : List Int) (states : List AgentInstance) (acts : List AAction),
      maa_start_tasks (some Examples.readyInst) Examples.stEnv Examples.threeTasks
          (some [Examples.okEnv]) false = (.ok ids, states, acts) ∧
      (∃ fin, states.getLast? = some fin ∧
        fin.agent_clients.length = Examples.readyInst.agent_clients.length + 1 ∧
        fin.agent_children.length = Examples.readyInst.agent_children.length + 1) ∧
      (∀ s ∈ states, s.agent_clients.length = s.agent_children.length) :=
  c2_batch_atomic_append Examples.readyInst Examples.stEnv Examples.threeTasks
    [Examples.okEnv] false Examples.readyInst 3 rfl rfl
    (by intro e he; rw [List.mem_singleton] at he; subst he; rfl) rfl

/-- The task-submission loop returns exactly the accepted ids, in input
order, and attempts every task. -/
theorem submitTasks_spec :
    ∀ (post : Nat → Option Int) (tasks : List TaskConfig) (idx : Nat),
      (submitTasks post idx tasks).1 = (List.range' idx tasks.length).filterMap post ∧
      (submitTasks post idx tasks).2 = (List.range' idx tasks.length).map AAction.posted := by
  intro post tasks
  induction tasks with
  | nil => intro idx; simp [submitTasks]
  | cons task rest ih =>
    intro idx
    have h := ih (idx + 1)
    cases hp : post idx with
    | some id => simp [submitTasks, List.range'_succ, hp, h.1, h.2]
    | none => simp [submitTasks, List.range'_succ, hp, h.1, h.2]

/-- The legacy task-submission loop does the same, skipping the entries the
engine answered with the invalid id. -/
theorem submitTasksLegacy_spec :
    ∀ (post : Nat → Int) (tasks : List TaskConfig) (idx : Nat),
      Legacy.submitTasksLegacy post idx tasks
        = (List.range' idx tasks.length).filterMap
            (fun i => if post i = MAA_INVALID_ID then none else some (post i)) := by
  intro post tasks
  induction tasks with
  | nil => intro idx; simp [Legacy.submitTasksLegacy]
  | cons task rest ih =>
    intro idx
    by_cases hp : post idx = MAA_INVALID_ID
    · simp [Legacy.submitTasksLegacy, List.range'_succ, hp, ih (idx + 1)]
    · simp [Legacy.submitTasksLegacy, List.range'_succ, hp, ih (idx + 1)]

/-- C5: tasks are posted one at a time in input order; a failed post is
skipped without aborting the rest; the returned ids are exactly those of
the successfully posted tasks, in input order — in both the agent-module
loop and the legacy loop — and a run of `maa_start_tasks` without agents
returns precisely that list and caches it. -/
theorem c5_partial_task_submission :
    ∀ (post : Nat → Option Int) (tasks : List TaskConfig),
      (submitTasks post 0 tasks).1 = (List.range tasks.length).filterMap post ∧
      (submitTasks post 0 tasks).2 = (List.range tasks.length).map AAction.posted ∧
      (∀ postL : Nat → Int,
        Legacy.submitTasksLegacy postL 0 tasks
          = (List.range tasks.length).filterMap
              (fun i => if postL i = MAA_INVALID_ID then none else some (postL i))) ∧
      (∀ (inst0 : AgentInstance) (env : StartTasksEnv) (tcp : Bool)
          (inst1 : AgentInstance) (t : Nat),
        ensureTasker inst0 env = .ok (inst1, t) → env.inited = true →
        maa_start_tasks (some inst0) env tasks none tcp
          = (.ok (submitTasks env.postTask 0 tasks).1,
             [inst1, { inst1 with task_ids := (submitTasks env.postTask 0 tasks).1 }],
             (submitTasks env.postTask 0 tasks).2)) := by
  intro post tasks
  refine ⟨?_, ?_, ?_, ?_⟩
  · rw [(submitTasks_spec post tasks 0).1, List.range_eq_range']
  · rw [(submitTasks_spec post tasks 0).2, List.range_eq_range']
  · intro postL
    rw [submitTasksLegacy_spec postL tasks 0, List.range_eq_range']
  · intro inst0 env tcp inst1 t h1 h2
    simp [maa_start_tasks, h1, h2]

/-- Witness for C5: three tasks where the second fails to post yield the
ids of the first and third only, in that order. -/
theorem c5_witness :
    (submitTasks Examples.c5post 0 Examples.threeTasks).1
      = (List.range Examples.threeTasks.length).filterMap Examples.c5post ∧
    Legacy.submitTasksLegacy Examples.c5postL 0 Examples.threeTasks
      = (List.range Examples.threeTasks.length).filterMap
          (fun i => if Examples.c5postL i = MAA_INVALID_ID then none
            else some (Examples.c5postL i)) ∧
    (submitTasks Examples.c5post 0 Examples.threeTasks).1 = [41, 43] ∧
    Legacy.submitTasksLegacy Examples.c5postL 0 Examples.threeTasks = [41, 43] :=
  ⟨(c5_partial_task_submission Examples.c5post Examples.threeTasks).1,
   (c5_partial_task_submission Examples.c5post Examples.threeTasks).2.2.1 Examples.c5postL,
   by decide, by decide⟩

/-- The poll loop only ever polls and sleeps: it never kills, waits or
disconnects. -/
theorem pollLoop_shape :
    ∀ (N : Nat) (beh : Nat → PollRes) (pid e k : Nat), 5000 - e ≤ N →
      ∀ a ∈ (pollLoop beh pid e k).2,
        (∃ j, a = SAction.polled pid j) ∨ a = SAction.slept pid 100 := by
  intro N
  induction N with
  | zero =>
    intro beh pid e k hN a ha
    have he : ¬ e < 5000 := by omega
    simp [pollLoop, he] at ha
  | succ N ih =>
    intro beh pid e k hN a ha
    by_cases he : e < 5000
    · rw [pollLoop, if_pos he] at ha
      cases hb : beh k with
      | exited =>
        rw [hb] at ha
        simp at ha
        exact .inl ⟨k, ha⟩
      | errored =>
        rw [hb] at ha
        simp at ha
        exact .inl ⟨k, ha⟩
      | running =>
        rw [hb] at ha
        simp only [List.mem_cons] at ha
        rcases ha with rfl | rfl | ha
        · exact .inl ⟨k, rfl⟩
        · exact .inr rfl
        · exact ih beh pid (e + 100) (k + 1) (by omega) a ha
    · simp [pollLoop, he] at ha

/-- A child that reports `exited` at poll `n < 50` (running before that)
makes the poll loop succeed. -/
theorem pollLoop_coop :
    ∀ (beh : Nat → PollRes) (pid n : Nat), n < 50 → beh n = .exited →
      (∀ m, m < n → beh m = .running) →
      ∀ (d k : Nat), k ≤ n → n - k ≤ d → (pollLoop beh pid (100 * k) k).1 = true := by
  intro beh pid n hn hx hr d
  induction d with
  | zero =>
    intro k hk hd
    have hkn : k = n := by omega
    subst hkn
    have h5 : 100 * k < 5000 := by omega
    simp [pollLoop, h5, hx]
  | succ d ih =>
    intro k hk hd
    by_cases hkn : k = n
    · subst hkn
      have h5 : 100 * k < 5000 := by omega
      simp [pollLoop, h5, hx]
    · have hklt : k < n := by omega
      have h5 : 100 * k < 5000 := by omega
      rw [pollLoop, if_pos h5, hr k hklt]
      have h100 : 100 * k + 100 = 100 * (k + 1) := by omega
      simp only [h100]
      exact ih (k + 1) (by omega) (by omega)

/-- A child that never exits makes the poll loop fail after exactly fifty
100 ms polls (the full 5-second bound). -/
theorem pollLoop_timeout :
    ∀ (beh : Nat → PollRes) (pid : Nat), (∀ m, beh m = .running) →
      ∀ (d k : Nat), 50 - k ≤ d →
        pollLoop beh pid (100 * k) k
          = (false, (List.range' k (50 - k)).flatMap
              (fun j => [SAction.polled pid j, SAction.slept pid 100])) := by
  intro beh pid hall d
  induction d with
  | zero =>
    intro k hd
    have hk : 50 ≤ k := by omega
    have he : ¬ 100 * k < 5000 := by omega
    have h0 : 50 - k = 0 := by omega
    simp [pollLoop, he, h0]
  | succ d ih =>
    intro k hd
    by_cases hk : 50 ≤ k
    · have he : ¬ 100 * k < 5000 := by omega
      have h0 : 50 - k = 0 := by omega
      simp [pollLoop, he, h0]
    · have h5 : 100 * k < 5000 := by omega
      rw [pollLoop, if_pos h5, hall k]
      have h100 : 100 * k + 100 = 100 * (k + 1) := by omega
      simp only [h100]
      rw [ih (k + 1) (by omega)]
      have h50 : 50 - k = (50 - (k + 1)) + 1 := by omega
      rw [h50, List.range'_succ]
      simp

/-- C3: `maa_stop_agent` empties both agent collections and its background
phase first disconnects every agent client and only then handles the child
processes; each child is polled non-blockingly every 100 ms within its own
5-second window; a child that exits within the window is never killed, and
a child that never exits is killed and then reaped after the full fifty
polls. -/
theorem c3_shutdown_two_phase :
    ∀ (inst : AgentInstance) (beh : Nat → Nat → PollRes),
      (maa_stop_agent (some inst) beh).1 = .ok () ∧
      (maa_stop_agent (some inst) beh).2.1
        = some { inst with agent_clients := [], agent_children := [] } ∧
      (maa_stop_agent (some inst) beh).2.2
        = inst.agent_clients.map SAction.disconnected
            ++ inst.agent_children.flatMap (fun pid => waitOrKillChild (beh pid) pid) ∧
      (∀ (pid : Nat) (b : Nat → PollRes),
        (∃ n, n < 50 ∧ b n = PollRes.exited ∧ (∀ m, m < n → b m = PollRes.running)) →
        SAction.killed pid ∉ waitOrKillChild b pid) ∧
      (∀ (pid : Nat) (b : Nat → PollRes), (∀ m, b m = PollRes.running) →
        waitOrKillChild b pid
          = (List.range 50).flatMap (fun k => [SAction.polled pid k, SAction.slept pid 100])
              ++ [SAction.killed pid, SAction.waited pid]) ∧
      (∀ a ∈ inst.agent_children.flatMap (fun pid => waitOrKillChild (beh pid) pid),
        ∀ c, a ≠ SAction.disconnected c) := by
  intro inst beh
  refine ⟨?_, ?_, ?_, ?_, ?_, ?_⟩
  · by_cases h : inst.agent_clients.isEmpty && inst.agent_children.isEmpty
    · simp [maa_stop_agent, h]
    · simp [maa_stop_agent, h]
  · by_cases h : inst.agent_clients.isEmpty && inst.agent_children.isEmpty
    · simp [maa_stop_agent, h]
    · simp [maa_stop_agent, h]
  · by_cases h : inst.agent_clients.isEmpty && inst.agent_children.isEmpty
    · rw [Bool.and_eq_true] at h
      have hc : inst.agent_clients = [] := List.isEmpty_iff.1 h.1
      have hch : inst.agent_children = [] := List.isEmpty_iff.1 h.2
      simp [maa_stop_agent, hc, hch]
    · simp [maa_stop_agent, h]
  · rintro pid b ⟨n, hn, hx, hr⟩
    have h1 : (pollLoop b pid 0 0).1 = true := by
      have := pollLoop_coop b pid n hn hx hr n 0 (Nat.zero_le n) (by omega)
      simpa using this
    intro hmem
    rw [waitOrKillChild, h1] at hmem
    simp only [if_true, List.append_nil] at hmem
    rcases pollLoop_shape 5000 b pid 0 0 (by omega) _ hmem with ⟨j, hj⟩ | hj <;> simp at hj
  · intro pid b hall
    have := pollLoop_timeout b pid hall 50 0 (by omega)
    simp only [Nat.mul_zero, Nat.sub_zero] at this
    rw [waitOrKillChild, this]
    simp [List.range_eq_range']
  · intro a ha c
    rw [List.mem_flatMap] at ha
    obtain ⟨pid, _hpid, hmem⟩ := ha
    rw [waitOrKillChild] at hmem
    rcases List.mem_append.1 hmem with hmem | hmem
    · rcases pollLoop_shape 5000 (beh pid) pid 0 0 (by omega) _ hmem with ⟨j, hj⟩ | hj <;>
        simp [hj]
    · by_cases hex : (pollLoop (beh pid) pid 0 0).1
      · simp [hex] at hmem
      · simp [hex] at hmem
        rcases hmem with rfl | rfl <;> simp

/-- Witness for C3 at a concrete instance: one client, one cooperatively
exiting child, plus a never-exiting child's exact kill-after-bound trace. -/
theorem c3_witness :
    (maa_stop_agent (some Examples.c3Inst) Examples.c3Beh).1 = .ok () ∧
    SAction.killed 6 ∉ waitOrKillChild (Examples.c3Beh 6) 6 ∧
    waitOrKillChild (fun _ => PollRes.running) 9
      = (List.range 50).flatMap (fun k => [SAction.polled 9 k, SAction.slept 9 100])
          ++ [SAction.killed 9, SAction.waited 9] :=
  ⟨(c3_shutdown_two_phase Examples.c3Inst Examples.c3Beh).1,
   (c3_shutdown_two_phase Examples.c3Inst Examples.c3Beh).2.2.2.1 6 (Examples.c3Beh 6)
     ⟨0, by omega, rfl, fun m hm => absurd hm (Nat.not_lt_zero m)⟩,
   (c3_shutdown_two_phase Examples.c3Inst Examples.c3Beh).2.2.2.2.1 9
     (fun _ => PollRes.running) (fun _ => rfl)⟩

/-- Witness for C7 amended at concrete instances. -/
theorem c7_witness :
    maa_stop_task true (some { Legacy.defaultInstanceR with task_ids := [9] })
      = (.error "Tasker not created", some Legacy.defaultInstanceR, []) ∧
    maa_start_tasks (some Examples.readyInst) { Examples.stEnv with inited := false }
        [] none true
      = (.error "Tasker not properly initialized", [Examples.readyInst], []) :=
  ⟨c7_config_error_side_effects.1 { Legacy.defaultInstanceR with task_ids := [9] } rfl,
   (c7_config_error_side_effects.2 Examples.readyInst
      { Examples.stEnv with inited := false } [] none true
      Examples.readyInst 3 rfl rfl).1⟩

/- ---- Process Pipe Reader lemmas (C8) ---- -/

theorem dropWhileLen (p : Char → Bool) :
    ∀ l : List Char, (l.dropWhile p).length ≤ l.length := by
  intro l
  induction l with
  | nil => simp [List.dropWhile]
  | cons a l ih =>
    by_cases h : p a
    · simp [List.dropWhile, h]
      omega
    · simp [List.dropWhile, h]

theorem csiMatch_length :
    ∀ (cs r : List Char), csiMatch cs = some r → r.length < cs.length := by
  intro cs r h
  have hd := dropWhileLen isCsiParam cs
  rw [csiMatch] at h
  rcases he : cs.dropWhile isCsiParam with _ | ⟨c, rest⟩ <;> rw [he] at h hd
  · simp at h
  · by_cases ha : c.isAlpha = true
    · simp only [ha, if_true] at h
      have hr : rest = r := by injection h
      subst hr
      simp at hd
      omega
    · simp [ha] at h

theorem oscMatch_length :
    ∀ cs : List Char, (oscMatch cs).length ≤ cs.length := by
  intro cs
  rw [oscMatch]
  rcases hd : cs.dropWhile (fun c => !(c = '\x07')) with _ | ⟨c, rest⟩
  · simp
  · have := dropWhileLen (fun c => !(c = '\x07')) cs
    rw [hd] at this
    simp at this ⊢
    omega

theorem stripAnsiAux_nil : ∀ f, stripAnsiAux f [] = [] := by
  intro f
  cases f <;> rfl

theorem stripAnsiAux_keep (f : Nat) (c : Char) (cs : List Char) (hc : ¬ c = '\x1b') :
    stripAnsiAux (f + 1) (c :: cs) = c :: stripAnsiAux f cs := by
  simp [stripAnsiAux, hc]

theorem stripAnsiAux_esc_nil (f : Nat) :
    stripAnsiAux (f + 1) ['\x1b'] = '\x1b' :: stripAnsiAux f [] := by
  simp [stripAnsiAux]

theorem stripAnsiAux_esc_csi (f : Nat) (rest r : List Char) (hm : csiMatch rest = some r) :
    stripAnsiAux (f + 1) ('\x1b' :: '[' :: rest) = stripAnsiAux f r := by
  simp [stripAnsiAux, hm]

theorem stripAnsiAux_esc_csi_none (f : Nat) (rest : List Char) (hm : csiMatch rest = none) :
    stripAnsiAux (f + 1) ('\x1b' :: '[' :: rest)
      = '\x1b' :: stripAnsiAux f ('[' :: rest) := by
  simp [stripAnsiAux, hm]

theorem stripAnsiAux_esc_osc (f : Nat) (rest : List Char) :
    stripAnsiAux (f + 1) ('\x1b' :: ']' :: rest) = stripAnsiAux f (oscMatch rest) := by
  simp [stripAnsiAux]

theorem stripAnsiAux_esc_other (f : Nat) (c2 : Char) (rest : List Char)
    (h2 : ¬ c2 = '[') (h3 : ¬ c2 = ']') :
    stripAnsiAux (f + 1) ('\x1b' :: c2 :: rest)
      = '\x1b' :: stripAnsiAux f (c2 :: rest) := by
  simp [stripAnsiAux, h2, h3]

/-- Any fuel at least the input length computes the canonical
`stripAnsiL`. -/
theorem stripAnsiAux_irrel :
    ∀ (N : Nat) (cs : List Char), cs.length ≤ N →
      ∀ f, cs.length ≤ f → stripAnsiAux f cs = stripAnsiL cs := by
  intro N
  induction N with
  | zero =>
    intro cs hN f hf
    have hnil : cs = [] := List.length_eq_zero.1 (by omega)
    subst hnil
    rw [stripAnsiAux_nil, stripAnsiL, stripAnsiAux_nil]
  | succ N ih =>
    intro cs hN f hf
    cases cs with
    | nil => rw [stripAnsiAux_nil, stripAnsiL, stripAnsiAux_nil]
    | cons c cs' =>
      cases f with
      | zero => simp at hf
      | succ f' =>
        simp only [List.length_cons] at hN hf
        have hlen : (c :: cs').length = cs'.length + 1 := by simp
        rw [stripAnsiL, hlen]
        by_cases hc : c = '\x1b'
        · subst hc
          cases cs' with
          | nil =>
            rw [stripAnsiAux_esc_nil, stripAnsiAux_esc_nil,
              stripAnsiAux_nil, stripAnsiAux_nil]
          | cons c2 rest =>
            simp only [List.length_cons] at hN hf
            simp only [List.length_cons]
            by_cases h2 : c2 = '['
            · subst h2
              rcases hm : csiMatch rest with _ | r
              · rw [stripAnsiAux_esc_csi_none f' rest hm,
                  stripAnsiAux_esc_csi_none (rest.length + 1) rest hm]
                have e1 : stripAnsiAux f' ('[' :: rest) = stripAnsiL ('[' :: rest) :=
                  ih ('[' :: rest) (by simp; omega) f' (by simp; omega)
                have e2 : stripAnsiAux (rest.length + 1) ('[' :: rest)
                    = stripAnsiL ('[' :: rest) :=
                  ih ('[' :: rest) (by simp; omega) (rest.length + 1) (by simp)
                rw [e1, e2]
              · have hr := csiMatch_length rest r hm
                rw [stripAnsiAux_esc_csi f' rest r hm,
                  stripAnsiAux_esc_csi (rest.length + 1) rest r hm]
                have e1 : stripAnsiAux f' r = stripAnsiL r :=
                  ih r (by omega) f' (by omega)
                have e2 : stripAnsiAux (rest.length + 1) r = stripAnsiL r :=
                  ih r (by omega) (rest.length + 1) (by omega)
                rw [e1, e2]
            · by_cases h3 : c2 = ']'
              · subst h3
                have hr := oscMatch_length rest
                rw [stripAnsiAux_esc_osc, stripAnsiAux_esc_osc]
                have e1 : stripAnsiAux f' (oscMatch rest) = stripAnsiL (oscMatch rest) :=
                  ih (oscMatch rest) (by omega) f' (by omega)
                have e2 : stripAnsiAux (rest.length + 1) (oscMatch rest)
                    = stripAnsiL (oscMatch rest) :=
                  ih (oscMatch rest) (by omega) (rest.length + 1) (by omega)
                rw [e1, e2]
              · rw [stripAnsiAux_esc_other f' c2 rest h2 h3,
                  stripAnsiAux_esc_other (rest.length + 1) c2 rest h2 h3]
                have e1 : stripAnsiAux f' (c2 :: rest) = stripAnsiL (c2 :: rest) :=
                  ih (c2 :: rest) (by simp; omega) f' (by simp; omega)
                have e2 : stripAnsiAux (rest.length + 1) (c2 :: rest)
                    = stripAnsiL (c2 :: rest) :=
                  ih (c2 :: rest) (by simp; omega) (rest.length + 1) (by simp)
                rw [e1, e2]
        · rw [stripAnsiAux_keep f' c cs' hc, stripAnsiAux_keep cs'.length c cs' hc]
          have e1 : stripAnsiAux f' cs' = stripAnsiL cs' :=
            ih cs' (by omega) f' (by omega)
          have e2 : stripAnsiAux cs'.length cs' = stripAnsiL cs' :=
            ih cs' (by omega) cs'.length (by omega)
          rw [e1, e2]

theorem dropWhile_params_append :
    ∀ (params l : List Char), (∀ p ∈ params, isCsiParam p = true) →
      (params ++ l).dropWhile isCsiParam = l.dropWhile isCsiParam := by
  intro params
  induction params with
  | nil => intro l _; simp
  | cons a ps ih =>
    intro l h
    have ha : isCsiParam a = true := h a (List.mem_cons_self a ps)
    simp only [List.cons_append, List.dropWhile_cons, ha, if_true]
    exact ih l (fun p hp => h p (List.mem_cons_of_mem a hp))

/-- A well-formed CSI escape sequence is removed wholesale by the stripper:
in a line whose prefix holds no escape character, the sequence
`ESC [ params letter` disappears and stripping continues after it. -/
theorem stripAnsiL_removes_csi :
    ∀ (pre params post : List Char) (c : Char),
      (∀ x ∈ pre, ¬ x = '\x1b') → (∀ p ∈ params, isCsiParam p = true) →
      c.isAlpha = true → isCsiParam c = false →
      stripAnsiL (pre ++ '\x1b' :: '[' :: (params ++ c :: post))
        = pre ++ stripAnsiL post := by
  intro pre params post c hpre hparams hca hcp
  induction pre with
  | nil =>
    have hm : csiMatch (params ++ c :: post) = some post := by
      rw [csiMatch, dropWhile_params_append params (c :: post) hparams]
      simp [List.dropWhile_cons, hcp, hca]
    rw [List.nil_append, stripAnsiL]
    have hlen : ('\x1b' :: '[' :: (params ++ c :: post)).length
        = (params.length + post.length + 2) + 1 := by
      simp
      omega
    rw [hlen, stripAnsiAux_esc_csi _ _ _ hm]
    exact stripAnsiAux_irrel (params.length + post.length + 2) post (by omega)
      (params.length + post.length + 2) (by omega)
  | cons a pre' ih =>
    have ha : ¬ a = '\x1b' := hpre a (List.mem_cons_self a pre')
    have htail := ih (fun x hx => hpre x (List.mem_cons_of_mem a hx))
    rw [List.cons_append, stripAnsiL]
    have hlen : (a :: (pre' ++ '\x1b' :: '[' :: (params ++ c :: post))).length
        = (pre' ++ '\x1b' :: '[' :: (params ++ c :: post)).length + 1 := by
      simp
    rw [hlen, stripAnsiAux_keep _ _ _ ha]
    rw [stripAnsiAux_irrel (pre' ++ '\x1b' :: '[' :: (params ++ c :: post)).length
      (pre' ++ '\x1b' :: '[' :: (params ++ c :: post)) (by omega)
      (pre' ++ '\x1b' :: '[' :: (params ++ c :: post)).length (by omega)]
    rw [htail]
    rfl

/-- C8 counterexample: for the raw line `ESC[31mred\n` the emitted event
line is the stripped "red", but the line appended to the log still contains
the escape sequence — so the claim that both the logged and the emitted
line have escape sequences removed is false. -/
theorem c8_counterexample :
    readerStep "i" "stdout" "TS" "\x1b[31mred\n"
      = ("TS [stdout] \x1b[31mred",
         { instance_id := "i", stream := "stdout", line := "red" }) ∧
    strip_ansi_escapes "TS [stdout] \x1b[31mred" ≠ "TS [stdout] \x1b[31mred" := by
  constructor
  · rfl
  · decide

/-- C8 amended: each raw line is end-trimmed; the log receives
`"{timestamp} [{stream}] {clean}"` with the escape sequences still present,
while the emitted event carries the instance id, the stream name and the
ANSI-stripped clean line; the stripper removes every well-formed CSI
sequence from the emitted line. -/
theorem c8_reader_strips_only_emitted :
    (∀ instance_id stream timestamp raw,
      readerStep instance_id stream timestamp raw
        = (timestamp ++ " [" ++ stream ++ "] " ++ rustTrimEnd raw,
           { instance_id := instance_id, stream := stream,
             line := strip_ansi_escapes (rustTrimEnd raw) })) ∧
    (∀ (pre params post : List Char) (c : Char),
      (∀ x ∈ pre, ¬ x = '\x1b') → (∀ p ∈ params, isCsiParam p = true) →
      c.isAlpha = true → isCsiParam c = false →
      stripAnsiL (pre ++ '\x1b' :: '[' :: (params ++ c :: post))
        = pre ++ stripAnsiL post) := by
  constructor
  · intro instance_id stream timestamp raw
    rfl
  · exact stripAnsiL_removes_csi

/-- Witness for C8 amended on concrete lines. -/
theorem c8_witness :
    readerStep "inst" "stderr" "T" "x\x1b[0m ok\n"
      = ("T" ++ " [" ++ "stderr" ++ "] " ++ rustTrimEnd "x\x1b[0m ok\n",
         { instance_id := "inst", stream := "stderr",
           line := strip_ansi_escapes (rustTrimEnd "x\x1b[0m ok\n") }) ∧
    stripAnsiL ("ab".toList ++ '\x1b' :: '[' :: ("31".toList ++ 'm' :: "cd".toList))
      = "ab".toList ++ stripAnsiL "cd".toList :=
  ⟨c8_reader_strips_only_emitted.1 "inst" "stderr" "T" "x\x1b[0m ok\n",
   c8_reader_strips_only_emitted.2 "ab".toList "31".toList "cd".toList 'm'
     (by decide) (by decide) rfl rfl⟩

end Theorems

end MXU
